import Mathlib

/-!
Verification of the EV-charging booking/payment/walk-in subsystem.

Shallow embedding of the TypeScript route handlers:
* `src/app/api/payments/initiate/route.ts`  — booking creation + payment initiation
* `src/app/api/payments/verify/route.ts`    — payment verification
* `src/app/api/payments/webhook/route.ts`   — deprecated Stripe webhook
* `src/app/api/walk-in/checkin/route.ts`    — public QR walk-in check-in,
  admin walk-in start/stop, admin port PATCH
* geolocation utilities (haversine, point-to-segment, point-to-route)

Conventions of the embedding:
* JavaScript numbers are modelled as `ℚ` (times in epoch milliseconds,
  money in NPR, durations in minutes); `Math.round` is Mathlib's `round`
  (both compute `⌊x + 1/2⌋`).
* The document store is a `List Booking`; `Booking.create` appends.
* Purely presentational fields (qrCode, eta, userLocation, vehicle data,
  notes) never influence the verified behaviour and are omitted.
* Fallible steps (gateway calls) are modelled by an explicit outcome
  parameter; a thrown exception is the `none` / `.error` case.
-/

namespace EVCharge

/-- Booking lifecycle status (Booking schema / spec §3). -/
inductive BookingStat
  | pending
  | confirmed
  | active
  | completed
  | cancelled
  | noShow
  deriving DecidableEq, Repr

/-- Charging-port status (`IChargingPort.status` in the Station model). -/
inductive PortStat
  | available
  | occupied
  | maintenance
  | reserved
  deriving DecidableEq, Repr

/-- A persisted Booking document, restricted to the fields the verified
handlers read or write. -/
structure Booking where
  id : String
  userId : String
  userName : String
  userEmail : String
  stationId : String
  portId : String
  startTime : ℚ
  endTime : ℚ
  estimatedDuration : ℚ
  status : BookingStat
  source : Option String
  amountPaid : Option ℚ
  paymentMethod : Option String
  khaltiPidx : Option String
  customerName : Option String
  customerPhone : Option String
  deriving DecidableEq, Repr

/-- One charging port of a station (`IChargingPort`), identified by `id`
(the Mongo subdocument `_id`). -/
structure ChargingPort where
  id : String
  portNumber : String
  status : PortStat
  currentBookingId : Option String
  deriving DecidableEq, Repr

/-! ## Booking creation + payment initiation
(`src/app/api/payments/initiate/route.ts`) -/

/-- The validated body of a payment-initiation request, after the handler
has normalised `portId` to the canonical port `_id` (line 83) and
converted `estimatedDuration` with `Number(...)` (line 86). -/
structure InitiateReq where
  stationId : String
  portId : String
  startTime : ℚ
  durationMinutes : ℚ
  deriving DecidableEq, Repr

/-- The Mongo overlap query of lines 102–107: an existing booking blocks
the requested slot when it is on the same station and port, its status is
in {pending, confirmed, active}, and `startTime < end && endTime > start`
(half-open interval overlap). -/
def bookingBlocks (stationId portId : String) (newStart newEnd : ℚ) (b : Booking) : Bool :=
  b.stationId == stationId && b.portId == portId &&
    (b.status == .pending || b.status == .confirmed || b.status == .active) &&
    (decide (b.startTime < newEnd) && decide (b.endTime > newStart))

/-- `Booking.findOne` of the overlap query: does any booking in the store
block the requested slot? -/
def hasOverlap (db : List Booking) (stationId portId : String) (newStart newEnd : ℚ) : Bool :=
  db.any (bookingBlocks stationId portId newStart newEnd)

/-- The pending booking inserted by lines 119–135 of the initiate handler:
status `pending`, no payment reference yet. -/
def newPendingBooking (newId userId userName userEmail : String) (r : InitiateReq) : Booking :=
  { id := newId
    userId := userId
    userName := userName
    userEmail := userEmail
    stationId := r.stationId
    portId := r.portId
    startTime := r.startTime
    endTime := r.startTime + r.durationMinutes * 60 * 1000
    estimatedDuration := r.durationMinutes
    status := .pending
    source := none
    amountPaid := none
    paymentMethod := none
    khaltiPidx := none
    customerName := none
    customerPhone := none }

/-- The transacted section of the initiate handler (lines 100–143):
re-check overlap inside the transaction; on conflict abort and answer 409
leaving the store untouched, otherwise insert the pending booking and
commit. -/
def initiateTxn (db : List Booking) (newId userId userName userEmail : String)
    (r : InitiateReq) : Except Nat (List Booking × Booking) :=
  let newStart := r.startTime
  let newEnd := r.startTime + r.durationMinutes * 60 * 1000
  if hasOverlap db r.stationId r.portId newStart newEnd then
    Except.error 409
  else
    let b := newPendingBooking newId userId userName userEmail r
    Except.ok (db ++ [b], b)

/-- Result of `khaltiInitiate` when the gateway call succeeds. -/
structure KhaltiRes where
  pidx : String
  payment_url : String
  deriving DecidableEq, Repr

/-- The whole initiate flow after validation (lines 85–213): the amount is
`round(perHour * duration/60)` NPR; the transacted insert runs first; the
gateway call happens outside the transaction, `none` modelling a thrown
`khaltiInitiate` error which the catch-all turns into a 500 response
without touching the already-committed booking; on success the payment
reference and amount are saved onto the booking (lines 192–195).
Returns (HTTP status, resulting store). -/
def initiateFlow (db : List Booking) (newId userId userName userEmail : String)
    (r : InitiateReq) (perHour : ℚ) (gateway : Option KhaltiRes) :
    Nat × List Booking :=
  match initiateTxn db newId userId userName userEmail r with
  | Except.error code => (code, db)
  | Except.ok (_, b) =>
    match gateway with
    | none => (500, db ++ [b])
    | some k =>
      let totalAmountNPR : ℤ := round (perHour * (r.durationMinutes / 60))
      let b2 := { b with khaltiPidx := some k.pidx, amountPaid := some (totalAmountNPR : ℚ) }
      (200, db ++ [b2])

/-! ## Payment verification (`src/app/api/payments/verify/route.ts`) -/

/-- The state-transforming core of the verify handler, lines 50–114, acting
on the booking being verified and on the charging port the booking's
`stationId`/`portId` filter selects. Returns the updated booking, the
updated port, and the `verified` flag of the JSON response.

* already confirmed/active/completed → short-circuit, nothing changes;
* gateway status `"Completed"` → booking confirmed, port reserved with
  `currentBookingId` pointing at the booking;
* `"User canceled"` / `"Expired"` → booking cancelled;
* `"Refunded"` / `"Partially refunded"` → booking cancelled;
* anything else (Pending / Initiated / …) → nothing changes. -/
def verifyApply (lookupStat : String) (b : Booking) (p : ChargingPort) :
    Booking × ChargingPort × Bool :=
  if b.status == .confirmed || b.status == .active || b.status == .completed then
    (b, p, true)
  else if lookupStat == "Completed" then
    ({ b with status := .confirmed },
     { p with status := .reserved, currentBookingId := some b.id }, true)
  else if lookupStat == "User canceled" || lookupStat == "Expired" then
    ({ b with status := .cancelled }, p, false)
  else if lookupStat == "Refunded" || lookupStat == "Partially refunded" then
    ({ b with status := .cancelled }, p, false)
  else
    (b, p, false)

/-! ## Walk-in flows (`src/app/api/walk-in/checkin/route.ts`) -/

/-- A JavaScript value fed through `Number(...)`: either a finite number,
or anything that converts to `NaN` (missing field, non-numeric string). -/
inductive JSNum
  | num (q : ℚ)
  | nan
  deriving DecidableEq, Repr

/-- Line 67 of the public QR check-in:
`Math.max(30, Math.min(Number(estimatedDuration) || 60, 480))`.
`x || 60` replaces both `NaN` and `0` (falsy values) by 60. -/
def clampDuration (d : JSNum) : ℚ :=
  let n : ℚ :=
    match d with
    | .num q => if q = 0 then 60 else q
    | .nan => 60
  max 30 (min n 480)

/-- The public QR walk-in check-in after station/port lookup (lines
60–103): require the port to be `available` (409 otherwise), clamp the
requested duration, price it at `round(duration/60 * perHour)` with
`perHour = station.pricing?.perHour ?? 200` (nullish coalescing: only a
missing price defaults), create an `active` booking carrying that
estimated amount, and mark the port occupied with `currentBookingId`
pointing at the new booking. -/
def walkinCheckin (port : ChargingPort) (perHourOpt : Option ℚ) (reqDuration : JSNum)
    (now : ℚ) (newId stationId customerName customerPhone : String) :
    Except Nat (Booking × ChargingPort) :=
  if port.status != .available then
    Except.error 409
  else
    let duration := clampDuration reqDuration
    let stop := now + duration * 60000
    let perHour := perHourOpt.getD 200
    let amount : ℤ := round (duration / 60 * perHour)
    let b : Booking :=
      { id := newId
        userId := "walk-in-qr-" ++ newId
        userName := customerName
        userEmail := ""
        stationId := stationId
        portId := port.id
        startTime := now
        endTime := stop
        estimatedDuration := duration
        status := .active
        source := some "walk-in-qr"
        amountPaid := some (amount : ℚ)
        paymentMethod := some "cash"
        khaltiPidx := none
        customerName := some customerName
        customerPhone := some customerPhone }
    Except.ok (b, { port with status := .occupied, currentBookingId := some newId })

/-- The admin walk-in `start` action after auth/station checks (lines
430–483). It does NOT read the port's status: the only conflict check is
`Booking.findOne` for an `active` booking with walk-in source on the same
station and port (lines 433–444). On success it creates an active
`walk-in-manual` booking with `amountPaid = 0` and a placeholder one-hour
window, and — only when `portId` is a valid ObjectId (`portIdValid`) —
sets the port's status to occupied (without `currentBookingId`).
`activeWalkinOn` is the `Booking.findOne` conflict query of lines
433–438: an active walk-in booking on the same station and port. -/
def activeWalkinOn (db : List Booking) (stationId portId : String) : Bool :=
  db.any (fun b =>
    b.stationId == stationId && b.portId == portId &&
      (b.source == some "walk-in-manual" || b.source == some "walk-in-qr") &&
      b.status == .active)

/-- See `activeWalkinOn` above: the admin walk-in `start` action. -/
def adminWalkinStart (db : List Booking) (stationId portId : String)
    (port : ChargingPort) (portIdValid : Bool) (now : ℚ) (newId : String) :
    Except Nat (Booking × ChargingPort) :=
  if activeWalkinOn db stationId portId then
    Except.error 409
  else
    let b : Booking :=
      { id := newId
        userId := "walk-in-" ++ newId
        userName := "Walk-in"
        userEmail := ""
        stationId := stationId
        portId := portId
        startTime := now
        endTime := now + 3600000
        estimatedDuration := 60
        status := .active
        source := some "walk-in-manual"
        amountPaid := some 0
        paymentMethod := some "cash"
        khaltiPidx := none
        customerName := some "Walk-in"
        customerPhone := some "" }
    Except.ok (b, if portIdValid then { port with status := .occupied } else port)

/-- `station?.pricing?.perHour || 200` of line 526: JavaScript `||`
replaces a missing station/pricing AND a zero price by 200. -/
def perHourOrDefault (perHourOpt : Option ℚ) : ℚ :=
  match perHourOpt with
  | none => 200
  | some q => if q = 0 then 200 else q

/-- The admin walk-in `stop` action on a located booking (lines 496–553):
404 unless the booking is `active`; otherwise
`durationMins = max(1, round(durationMs / 60000))`,
`amount = round(durationMs / 3600000 * perHour)`, the booking is completed
with those values and `endTime = now`, and the port is freed to
`available` (when both ids are valid ObjectIds, modelled by the caller
applying the returned port status). Returns the updated booking and the
status written to the port. -/
def adminWalkinStop (b : Booking) (perHourOpt : Option ℚ) (now : ℚ) :
    Except Nat (Booking × PortStat) :=
  if b.status != .active then
    Except.error 404
  else
    let durationMs := now - b.startTime
    let durationMins : ℤ := max 1 (round (durationMs / 60000))
    let perHour := perHourOrDefault perHourOpt
    let amount : ℤ := round (durationMs / 3600000 * perHour)
    Except.ok
      ({ b with
          endTime := now
          estimatedDuration := (durationMins : ℚ)
          amountPaid := some (amount : ℚ)
          status := .completed },
        .available)

/-! ## Route-level guard chains and HTTP status codes

Each `...Route` function mirrors one handler's full branch structure from
the top of `POST` to the response, with the outcome of auth, body parsing
and database lookups supplied as explicit parameters. The first component
of the result is the HTTP status code of the response. -/

/-- The verify handler end to end (`payments/verify/route.ts` lines
8–122): 401 without auth, 400 on missing `pidx`/`bookingId`, 503 when the
Khalti secret key is absent, 500 when `khaltiLookup` throws, 404 on an
unknown booking, 403 when the booking belongs to another user, otherwise
200 with the state change of `verifyApply`. -/
def verifyRoute (authUser : Option String) (pidx bookingId : Option String)
    (khaltiConfigured : Bool) (lookup : Except Unit String)
    (bookingOpt : Option Booking) (p : ChargingPort) :
    Nat × Option (Booking × ChargingPort × Bool) :=
  match authUser with
  | none => (401, none)
  | some userId =>
    if pidx.isNone || bookingId.isNone then (400, none)
    else if !khaltiConfigured then (503, none)
    else
      match lookup with
      | Except.error _ => (500, none)
      | Except.ok lookupStat =>
        match bookingOpt with
        | none => (404, none)
        | some b =>
          if b.userId != userId then (403, none)
          else (200, some (verifyApply lookupStat b p))

/-- The deprecated Stripe webhook (`payments/webhook/route.ts`):
unconditionally 410 Gone. -/
def webhookRoute (_req : Unit) : Nat :=
  410

/-- The initiate handler end to end (`payments/initiate/route.ts` lines
14–213): 401 without auth, 404 when neither a DB user nor a Clerk user
can be resolved, 400 on missing body fields, 503 when the Khalti secret
key is absent, 404 on unknown station or port, then the transacted
overlap-check-and-insert plus gateway call of `initiateFlow`.
Returns (status, resulting booking store). -/
def initiateRoute (authUser : Option String) (userResolvable : Bool)
    (fieldsPresent : Bool) (khaltiConfigured : Bool)
    (stationFound : Bool) (portFound : Bool)
    (db : List Booking) (newId userName userEmail : String)
    (r : InitiateReq) (perHour : ℚ) (gateway : Option KhaltiRes) :
    Nat × List Booking :=
  match authUser with
  | none => (401, db)
  | some userId =>
    if !userResolvable then (404, db)
    else if !fieldsPresent then (400, db)
    else if !khaltiConfigured then (503, db)
    else if !stationFound then (404, db)
    else if !portFound then (404, db)
    else initiateFlow db newId userId userName userEmail r perHour gateway

/-- The public QR walk-in check-in end to end (`walk-in/checkin/route.ts`
lines 11–128): 400 on missing station/port or name/phone, 404 on unknown
station or port, then the port-availability check and booking creation of
`walkinCheckin` (409 conflict or 201 created). -/
def walkinCheckinRoute (stationPortPresent namePhonePresent : Bool)
    (stationFound : Bool) (portOpt : Option ChargingPort)
    (perHourOpt : Option ℚ) (reqDuration : JSNum) (now : ℚ)
    (newId stationId customerName customerPhone : String) :
    Nat × Option (Booking × ChargingPort) :=
  if !stationPortPresent then (400, none)
  else if !namePhonePresent then (400, none)
  else if !stationFound then (404, none)
  else
    match portOpt with
    | none => (404, none)
    | some port =>
      match walkinCheckin port perHourOpt reqDuration now newId stationId
          customerName customerPhone with
      | Except.error code => (code, none)
      | Except.ok res => (201, some res)

/-- The three actions of the admin walk-in handler. -/
inductive WalkinAction
  | start
  | stop
  | log
  deriving DecidableEq, Repr

/-- The admin walk-in handler end to end (`admin/walk-in` POST, lines
370–624): 401 without auth, 403 unless the user role is admin/superadmin,
then per action: `start` → 400 missing fields / 404 station / 403
ownership / `adminWalkinStart`, success 201; `stop` → 400 missing
bookingId / 404 no active booking / 403 ownership / `adminWalkinStop`,
success 200; `log` (the default) → 400 missing fields / 403 ownership /
201 created. -/
def adminWalkinRoute (authUser : Option String) (roleOk : Bool)
    (action : WalkinAction) (fieldsPresent : Bool) (stationFound : Bool)
    (ownershipOk : Bool) (db : List Booking) (stationId portId : String)
    (port : ChargingPort) (portIdValid : Bool)
    (stopBooking : Option Booking) (perHourOpt : Option ℚ)
    (now : ℚ) (newId : String) : Nat :=
  match authUser with
  | none => 401
  | some _ =>
    if !roleOk then 403
    else
      match action with
      | .start =>
        if !fieldsPresent then 400
        else if !stationFound then 404
        else if !ownershipOk then 403
        else
          match adminWalkinStart db stationId portId port portIdValid now newId with
          | Except.error code => code
          | Except.ok _ => 201
      | .stop =>
        if !fieldsPresent then 400
        else
          match stopBooking with
          | none => 404
          | some b =>
            if b.status != .active then 404
            else if !ownershipOk then 403
            else
              match adminWalkinStop b perHourOpt now with
              | Except.error code => code
              | Except.ok _ => 200
      | .log =>
        if !fieldsPresent then 400
        else if !ownershipOk then 403
        else 201

/-! ## Geolocation utilities (`src/lib/utils.ts`)

JavaScript numbers are modelled by `ℝ` here because the functions use
trigonometry; `Infinity` is the top element of `EReal`. -/

open Real in
/-- JavaScript's `Math.atan2(y, x)` on real arguments. -/
noncomputable def jsAtan2 (y x : ℝ) : ℝ :=
  if 0 < x then arctan (y / x)
  else if x < 0 then
    (if 0 ≤ y then arctan (y / x) + π else arctan (y / x) - π)
  else
    (if 0 < y then π / 2 else if y < 0 then -(π / 2) else 0)

open Real in
/-- `haversineDistance(lat1, lng1, lat2, lng2)`: great-circle distance in
km between two lat/lng points, Earth radius 6371 km. -/
noncomputable def haversineDistance (lat1 lng1 lat2 lng2 : ℝ) : ℝ :=
  let R : ℝ := 6371
  let dLat := (lat2 - lat1) * π / 180
  let dLng := (lng2 - lng1) * π / 180
  let a :=
    sin (dLat / 2) * sin (dLat / 2) +
      cos (lat1 * π / 180) * cos (lat2 * π / 180) * sin (dLng / 2) * sin (dLng / 2)
  let c := 2 * jsAtan2 (Real.sqrt a) (Real.sqrt (1 - a))
  R * c

/-- `pointToSegmentDistance(px, py, ax, ay, bx, by)`: distance from a
point to the closest point of a segment, measured with
`haversineDistance`; the projection parameter `t` is clamped to [0, 1]. -/
noncomputable def pointToSegmentDistance (px py ax ay bx bY : ℝ) : ℝ :=
  let dx := bx - ax
  let dy := bY - ay
  if dx = 0 ∧ dy = 0 then haversineDistance px py ax ay
  else
    let t := ((px - ax) * dx + (py - ay) * dy) / (dx * dx + dy * dy)
    let t2 := max 0 (min 1 t)
    haversineDistance px py (ax + t2 * dx) (ay + t2 * dy)

/-- Distance from `(lat, lng)` to the segment between two route
coordinates, which are stored `[lng, lat]` (line 54 destructures them in
that order and passes latitudes first). -/
noncomputable def routeSegDist (lat lng : ℝ) (a b : ℝ × ℝ) : ℝ :=
  pointToSegmentDistance lat lng a.2 a.1 b.2 b.1

/-- The accumulator loop of `pointToRouteDistance` (lines 50–57): walk the
consecutive pairs of the polyline, keeping the smallest segment distance
seen so far; `minDist` starts at `Infinity` (`⊤ : EReal`). -/
noncomputable def routeLoop (lat lng : ℝ) (minDist : EReal) :
    List (ℝ × ℝ) → EReal
  | a :: b :: rest =>
    routeLoop lat lng
      (if ((routeSegDist lat lng a b : ℝ) : EReal) < minDist
        then ((routeSegDist lat lng a b : ℝ) : EReal) else minDist)
      (b :: rest)
  | _ => minDist

/-- `pointToRouteDistance(lat, lng, routeCoords)`: minimum distance from a
point to any segment of a polyline, `Infinity` when the polyline has no
segment. -/
noncomputable def pointToRouteDistance (lat lng : ℝ) (routeCoords : List (ℝ × ℝ)) : EReal :=
  routeLoop lat lng ⊤ routeCoords

/-! ## Concrete fixtures (spec §8 example: port P1, times in ms of day) -/

/-- Booking A of the spec §8 example: port P1, 10:00–11:00. -/
def bookingA : Booking :=
  { id := "A"
    userId := "u1"
    userName := "User One"
    userEmail := "u1@example.com"
    stationId := "S1"
    portId := "P1"
    startTime := 36000000
    endTime := 39600000
    estimatedDuration := 60
    status := .confirmed
    source := none
    amountPaid := none
    paymentMethod := none
    khaltiPidx := none
    customerName := none
    customerPhone := none }

/-- Request B of the spec §8 example: port P1, 10:30–11:30 (overlaps A). -/
def reqB : InitiateReq :=
  { stationId := "S1", portId := "P1", startTime := 37800000, durationMinutes := 60 }

/-- Request C of the spec §8 example: port P1, 11:00–12:00 (abuts A). -/
def reqC : InitiateReq :=
  { stationId := "S1", portId := "P1", startTime := 39600000, durationMinutes := 60 }

/-- A pending copy of booking A, used for the verify-handler examples. -/
def bookingP : Booking :=
  { bookingA with id := "P", status := .pending }

/-- An active walk-in booking starting at time 0, for the stop examples. -/
def bookingW : Booking :=
  { bookingA with
    id := "W"
    status := .active
    source := some "walk-in-manual"
    startTime := 0
    endTime := 3600000 }

/-- An available charging port. -/
def port1 : ChargingPort :=
  { id := "P1", portNumber := "1", status := .available, currentBookingId := none }

/-- A port under maintenance. -/
def portM : ChargingPort :=
  { id := "P1", portNumber := "1", status := .maintenance, currentBookingId := none }

/-! ## Helper lemmas -/

/-- The Mongo overlap query succeeds exactly when some stored booking on
the same station and port, with status in {pending, confirmed, active},
satisfies the half-open overlap test. -/
theorem hasOverlap_iff (db : List Booking) (stationId portId : String) (newStart newEnd : ℚ) :
    hasOverlap db stationId portId newStart newEnd = true ↔
      ∃ b ∈ db, b.stationId = stationId ∧ b.portId = portId ∧
        (b.status = .pending ∨ b.status = .confirmed ∨ b.status = .active) ∧
        b.startTime < newEnd ∧ b.endTime > newStart := by
  simp [hasOverlap, bookingBlocks, List.any_eq_true, Bool.and_eq_true, Bool.or_eq_true,
    beq_iff_eq, decide_eq_true_eq, and_assoc, or_assoc]

/-! ## Claim theorems -/

/-- C1: a validated online booking-creation request is rejected with 409
and inserts nothing if and only if some existing booking on the same
station and exact port with status in {pending, confirmed, active}
overlaps the half-open interval [start, end) under
`existing.start < newEnd && existing.end > newStart`; an abutting booking
(`existing.end = newStart`) therefore does not block. -/
theorem initiate_reject_iff_overlap (db : List Booking)
    (newId userId userName userEmail : String) (r : InitiateReq) (perHour : ℚ)
    (gateway : Option KhaltiRes) :
    ((initiateFlow db newId userId userName userEmail r perHour gateway).1 = 409 ∧
      (initiateFlow db newId userId userName userEmail r perHour gateway).2 = db) ↔
      ∃ b ∈ db, b.stationId = r.stationId ∧ b.portId = r.portId ∧
        (b.status = .pending ∨ b.status = .confirmed ∨ b.status = .active) ∧
        b.startTime < r.startTime + r.durationMinutes * 60 * 1000 ∧
        b.endTime > r.startTime := by
  rw [← hasOverlap_iff db r.stationId r.portId r.startTime
    (r.startTime + r.durationMinutes * 60 * 1000)]
  by_cases h : hasOverlap db r.stationId r.portId r.startTime
      (r.startTime + r.durationMinutes * 60 * 1000) = true
  · simp [initiateFlow, initiateTxn, h]
  · cases gateway <;> simp [initiateFlow, initiateTxn, h]

/-- C1 check: with booking A (10:00–11:00) stored, overlapping request B
is rejected with 409 and nothing inserted, while abutting request C is
not. -/
theorem initiate_reject_iff_overlap_check :
    ((initiateFlow [bookingA] "B" "u2" "User Two" "u2@x" reqB 200 none).1 = 409 ∧
      (initiateFlow [bookingA] "B" "u2" "User Two" "u2@x" reqB 200 none).2 = [bookingA]) ∧
    ¬((initiateFlow [bookingA] "C" "u2" "User Two" "u2@x" reqC 200 none).1 = 409 ∧
      (initiateFlow [bookingA] "C" "u2" "User Two" "u2@x" reqC 200 none).2 = [bookingA]) := by
  constructor
  · rw [initiate_reject_iff_overlap]
    refine ⟨bookingA, by simp, ?_⟩
    norm_num [bookingA, reqB]
  · rw [initiate_reject_iff_overlap]
    rintro ⟨b, hb, -, -, -, -, hgt⟩
    simp only [List.mem_singleton] at hb
    subst hb
    norm_num [bookingA, reqC] at hgt

/-- C6: the transacted section covers only the overlap re-check and the
insert: on conflict nothing is inserted and the answer is 409; when the
insert commits and the gateway call then fails, the handler answers 500
but the committed booking stays in the store with status `pending` and no
`khaltiPidx`. -/
theorem initiate_partial_failure (db : List Booking)
    (newId userId userName userEmail : String) (r : InitiateReq) (perHour : ℚ) :
    (hasOverlap db r.stationId r.portId r.startTime
        (r.startTime + r.durationMinutes * 60 * 1000) = false →
      initiateFlow db newId userId userName userEmail r perHour none =
        (500, db ++ [newPendingBooking newId userId userName userEmail r]) ∧
      (newPendingBooking newId userId userName userEmail r).status = .pending ∧
      (newPendingBooking newId userId userName userEmail r).khaltiPidx = none) ∧
    (∀ gateway, hasOverlap db r.stationId r.portId r.startTime
        (r.startTime + r.durationMinutes * 60 * 1000) = true →
      initiateFlow db newId userId userName userEmail r perHour gateway = (409, db)) := by
  constructor
  · intro h
    refine ⟨?_, rfl, rfl⟩
    simp [initiateFlow, initiateTxn, h]
  · intro gateway h
    simp [initiateFlow, initiateTxn, h]

/-- C6 check: request C on an empty store with a failing gateway call
leaves exactly one pending booking without payment reference; request B
against booking A is rejected with the store untouched. -/
theorem initiate_partial_failure_check :
    (initiateFlow [] "C" "u2" "User Two" "u2@x" reqC 200 none =
        (500, [newPendingBooking "C" "u2" "User Two" "u2@x" reqC]) ∧
      (newPendingBooking "C" "u2" "User Two" "u2@x" reqC).status = .pending ∧
      (newPendingBooking "C" "u2" "User Two" "u2@x" reqC).khaltiPidx = none) ∧
    initiateFlow [bookingA] "B" "u2" "User Two" "u2@x" reqB 200
        (some { pidx := "px", payment_url := "u" }) = (409, [bookingA]) := by
  constructor
  · exact (initiate_partial_failure [] "C" "u2" "User Two" "u2@x" reqC 200).1 rfl
  · refine (initiate_partial_failure [bookingA] "B" "u2" "User Two" "u2@x" reqB 200).2
      (some { pidx := "px", payment_url := "u" }) ?_
    rw [hasOverlap_iff]
    refine ⟨bookingA, by simp, ?_⟩
    norm_num [bookingA, reqB]

/-- C2 counterexample: the gateway status `"Partially refunded"` is none
of Completed / User canceled / Expired / Refunded, yet the verify handler
cancels the booking instead of leaving it pending. -/
theorem verify_partially_refunded_cancels :
    (verifyApply "Partially refunded" bookingP port1).1.status = .cancelled ∧
    BookingStat.cancelled ≠ BookingStat.pending ∧
    ("Partially refunded" : String) ≠ "Completed" ∧
    ("Partially refunded" : String) ≠ "User canceled" ∧
    ("Partially refunded" : String) ≠ "Expired" ∧
    ("Partially refunded" : String) ≠ "Refunded" := by
  refine ⟨?_, by decide, by decide, by decide, by decide, by decide⟩
  rfl

/-- C2 (amended): on a pending booking, `"Completed"` confirms the
booking and reserves the port with `currentBookingId` set; each of
`"User canceled"`, `"Expired"`, `"Refunded"` and `"Partially refunded"`
cancels the booking; every other gateway status leaves booking and port
unchanged. -/
theorem verify_status_mapping (lookupStat : String) (b : Booking) (p : ChargingPort)
    (hb : b.status = .pending) :
    (lookupStat = "Completed" →
      verifyApply lookupStat b p =
        ({ b with status := .confirmed },
         { p with status := .reserved, currentBookingId := some b.id }, true)) ∧
    ((lookupStat = "User canceled" ∨ lookupStat = "Expired" ∨
        lookupStat = "Refunded" ∨ lookupStat = "Partially refunded") →
      verifyApply lookupStat b p = ({ b with status := .cancelled }, p, false)) ∧
    ((lookupStat ≠ "Completed" ∧ lookupStat ≠ "User canceled" ∧ lookupStat ≠ "Expired" ∧
        lookupStat ≠ "Refunded" ∧ lookupStat ≠ "Partially refunded") →
      verifyApply lookupStat b p = (b, p, false)) := by
  refine ⟨?_, ?_, ?_⟩
  · rintro rfl
    simp [verifyApply, hb]
  · rintro (rfl | rfl | rfl | rfl) <;> simp [verifyApply, hb]
  · rintro ⟨h1, h2, h3, h4, h5⟩
    simp [verifyApply, hb, beq_iff_eq, h1, h2, h3, h4, h5]

/-- C2 check: instantiating the mapping at `"Expired"` on a pending
booking. -/
theorem verify_status_mapping_check :
    verifyApply "Expired" bookingP port1 =
      ({ bookingP with status := .cancelled }, port1, false) :=
  (verify_status_mapping "Expired" bookingP port1 rfl).2.1 (Or.inr (Or.inl rfl))

/-- C3: verification short-circuits on a booking that is already
confirmed, active or completed, changing nothing; hence after a first
`"Completed"` verification of a pending booking, a second run leaves the
booking and the port exactly as the first run left them. -/
theorem verify_idempotent :
    (∀ (lookupStat : String) (b : Booking) (p : ChargingPort),
        b.status = .confirmed ∨ b.status = .active ∨ b.status = .completed →
        verifyApply lookupStat b p = (b, p, true)) ∧
    (∀ (b : Booking) (p : ChargingPort), b.status = .pending →
        verifyApply "Completed" (verifyApply "Completed" b p).1
            (verifyApply "Completed" b p).2.1 =
          ((verifyApply "Completed" b p).1, (verifyApply "Completed" b p).2.1, true)) := by
  constructor
  · rintro ls b p (h | h | h) <;> simp [verifyApply, h]
  · intro b p hb
    have h1 : verifyApply "Completed" b p =
        ({ b with status := .confirmed },
         { p with status := .reserved, currentBookingId := some b.id }, true) := by
      simp [verifyApply, hb]
    rw [h1]
    simp [verifyApply]

/-- C3 check: a confirmed booking is untouched by any lookup status, and
the double run after `"Completed"` on a pending booking changes nothing
the second time. -/
theorem verify_idempotent_check :
    verifyApply "Expired" bookingA port1 = (bookingA, port1, true) ∧
    verifyApply "Completed" (verifyApply "Completed" bookingP port1).1
        (verifyApply "Completed" bookingP port1).2.1 =
      ((verifyApply "Completed" bookingP port1).1,
        (verifyApply "Completed" bookingP port1).2.1, true) :=
  ⟨verify_idempotent.1 "Expired" bookingA port1 (Or.inl rfl),
   verify_idempotent.2 bookingP port1 rfl⟩

/-- C4 counterexample: the admin start action accepts a port whose status
is `maintenance` (it never reads the port status), and the QR check-in
books with a non-zero `amountPaid` (the estimated charge), both against
the claim that every walk-in start verifies availability and creates a
zero-payment booking. -/
theorem walkin_start_spec_violation :
    portM.status ≠ .available ∧
    (adminWalkinStart [] "S1" "P1" portM true 0 "W1").toOption.isSome = true ∧
    (walkinCheckin port1 (some 200) (.num 60) 0 "W2" "S1" "Name" "98").map
        (fun r => r.1.amountPaid) = Except.ok (some 200) ∧
    some (200 : ℚ) ≠ some (0 : ℚ) := by
  refine ⟨by decide, rfl, ?_, by norm_num⟩
  have hr : (round ((60 : ℚ) / 60 * 200) : ℤ) = 200 := by
    norm_num [round_eq]
  have hc : clampDuration (.num 60) = 60 := by
    simp [clampDuration]
    rw [min_eq_left (by norm_num : (60 : ℚ) ≤ 480),
      max_eq_right (by norm_num : (30 : ℚ) ≤ 60)]
  simp [walkinCheckin, port1, hc, hr, Except.map]

/-- C4 (amended): the QR check-in rejects with 409 exactly when the port
is not available and otherwise creates an active booking carrying the
estimated amount `round(duration/60 × rate)` and occupies the port; the
admin start action instead rejects with 409 exactly when an active
walk-in booking already exists on that station and port — it does not
consult the port status — and otherwise creates an active booking with
zero payment and occupies the port. -/
theorem walkin_start_behaviour (db : List Booking) (stationId : String)
    (port : ChargingPort) (perHourOpt : Option ℚ) (d : JSNum) (now : ℚ)
    (newId customerName customerPhone : String) :
    (port.status ≠ .available →
      walkinCheckin port perHourOpt d now newId stationId customerName customerPhone
        = Except.error 409) ∧
    (port.status = .available →
      (walkinCheckin port perHourOpt d now newId stationId customerName customerPhone).map
          (fun r => (r.1.status, r.1.amountPaid, r.2)) =
        Except.ok (BookingStat.active,
          some ((round (clampDuration d / 60 * perHourOpt.getD 200) : ℤ) : ℚ),
          { port with status := .occupied, currentBookingId := some newId })) ∧
    (activeWalkinOn db stationId port.id = true →
      adminWalkinStart db stationId port.id port true now newId = Except.error 409) ∧
    (activeWalkinOn db stationId port.id = false →
      (adminWalkinStart db stationId port.id port true now newId).map
          (fun r => (r.1.status, r.1.amountPaid, r.2)) =
        Except.ok (BookingStat.active, some (0 : ℚ), { port with status := .occupied })) := by
  refine ⟨?_, ?_, ?_, ?_⟩
  · intro h
    simp [walkinCheckin, h]
  · intro h
    simp [walkinCheckin, h, Except.map]
  · intro h
    simp [adminWalkinStart, h]
  · intro h
    simp [adminWalkinStart, h, Except.map]

/-- C4 check: the QR check-in on an available port at rate 200 and
duration 60 creates the booking and occupies the port; the admin start on
an empty store succeeds. -/
theorem walkin_start_behaviour_check :
    (walkinCheckin port1 (some 200) (.num 60) 0 "W2" "S1" "Name" "98").map
        (fun r => (r.1.status, r.1.amountPaid, r.2)) =
      Except.ok (BookingStat.active,
        some ((round (clampDuration (.num 60) / 60 * (Option.getD (some 200) 200 : ℚ)) : ℤ) : ℚ),
        { port1 with status := .occupied, currentBookingId := some "W2" }) ∧
    (adminWalkinStart [] "S1" port1.id port1 true 0 "W1").map
        (fun r => (r.1.status, r.1.amountPaid, r.2)) =
      Except.ok (BookingStat.active, some (0 : ℚ), { port1 with status := .occupied }) :=
  ⟨(walkin_start_behaviour [] "S1" port1 (some 200) (.num 60) 0 "W2" "Name" "98").2.1 rfl,
   (walkin_start_behaviour [] "S1" port1 (some 200) (.num 60) 0 "W1" "Name" "98").2.2.2 rfl⟩

/-- C9 counterexample: a requested duration of 0 is numeric and present,
so the claimed clamp into [30, 480] would yield 30, but `|| 60` treats 0
as falsy and the handler books 60 minutes instead. -/
theorem checkin_duration_zero_default :
    clampDuration (.num 0) = 60 ∧
    max 30 (min (0 : ℚ) 480) = 30 ∧
    (60 : ℚ) ≠ 30 ∧
    (walkinCheckin port1 (some 200) (.num 0) 0 "W2" "S1" "Name" "98").map
        (fun r => r.1.estimatedDuration) = Except.ok 60 := by
  have hc : clampDuration (.num 0) = 60 := by
    simp [clampDuration]
    rw [min_eq_left (by norm_num : (60 : ℚ) ≤ 480),
      max_eq_right (by norm_num : (30 : ℚ) ≤ 60)]
  refine ⟨hc, ?_, by norm_num, ?_⟩
  · rw [min_eq_left (by norm_num : (0 : ℚ) ≤ 480),
      max_eq_left (by norm_num : (0 : ℚ) ≤ 30)]
  · simp [walkinCheckin, port1, hc, Except.map]

/-- C9 (amended): the QR check-in books `clampDuration d` minutes, which
lies in [30, 480], equals 60 when the requested duration is missing,
non-numeric or zero, and equals the clamp of the requested value
otherwise; the booking's `endTime` is `startTime` plus the clamped
duration, and its amount is `round(duration/60 × perHour)` with `perHour`
defaulting to 200 only when the station has no pricing. -/
theorem checkin_clamp_amount (port : ChargingPort) (perHourOpt : Option ℚ) (d : JSNum)
    (now : ℚ) (newId stationId customerName customerPhone : String)
    (hav : port.status = .available) :
    (walkinCheckin port perHourOpt d now newId stationId customerName customerPhone).map
        (fun r => (r.1.estimatedDuration, r.1.startTime, r.1.endTime, r.1.amountPaid,
          r.1.status)) =
      Except.ok (clampDuration d, now, now + clampDuration d * 60000,
        some ((round (clampDuration d / 60 * perHourOpt.getD 200) : ℤ) : ℚ),
        BookingStat.active) ∧
    30 ≤ clampDuration d ∧ clampDuration d ≤ 480 ∧
    ((d = JSNum.nan ∨ d = JSNum.num 0) → clampDuration d = 60) ∧
    (∀ q : ℚ, d = JSNum.num q → q ≠ 0 → clampDuration d = max 30 (min q 480)) := by
  refine ⟨?_, le_max_left 30 _, max_le (by norm_num) (min_le_right _ _), ?_, ?_⟩
  · simp [walkinCheckin, hav, Except.map]
  · rintro (rfl | rfl)
    · simp [clampDuration]
      rw [min_eq_left (by norm_num : (60 : ℚ) ≤ 480),
        max_eq_right (by norm_num : (30 : ℚ) ≤ 60)]
    · simp [clampDuration]
      rw [min_eq_left (by norm_num : (60 : ℚ) ≤ 480),
        max_eq_right (by norm_num : (30 : ℚ) ≤ 60)]
  · rintro q rfl hq
    simp [clampDuration, hq]

/-- C9 check: a request of 600 minutes is clamped to 480 and priced at
round(480/60 × 200) = 1600 NPR. -/
theorem checkin_clamp_amount_check :
    (walkinCheckin port1 (some 200) (.num 600) 0 "W2" "S1" "Name" "98").map
        (fun r => (r.1.estimatedDuration, r.1.startTime, r.1.endTime, r.1.amountPaid,
          r.1.status)) =
      Except.ok (clampDuration (.num 600), 0, 0 + clampDuration (.num 600) * 60000,
        some ((round (clampDuration (.num 600) / 60 * (Option.getD (some 200) 200 : ℚ)) : ℤ) : ℚ),
        BookingStat.active) ∧
    30 ≤ clampDuration (.num 600) ∧ clampDuration (.num 600) ≤ 480 :=
  ⟨(checkin_clamp_amount port1 (some 200) (.num 600) 0 "W2" "S1" "Name" "98" rfl).1,
   (checkin_clamp_amount port1 (some 200) (.num 600) 0 "W2" "S1" "Name" "98" rfl).2.1,
   (checkin_clamp_amount port1 (some 200) (.num 600) 0 "W2" "S1" "Name" "98" rfl).2.2.1⟩

/-- C5: stopping an active walk-in session at a time `now` not earlier
than its start, with a non-negative effective hourly rate, completes the
booking with an elapsed duration of at least 1 minute and a non-negative
amount, stamps `endTime = now`, and frees the port to `available`. -/
theorem walkin_stop_bounds (b : Booking) (perHourOpt : Option ℚ) (now : ℚ)
    (hact : b.status = .active) (hle : b.startTime ≤ now)
    (hp : 0 ≤ perHourOrDefault perHourOpt) :
    ∃ dm a : ℤ, adminWalkinStop b perHourOpt now =
        Except.ok ({ b with
          endTime := now
          estimatedDuration := (dm : ℚ)
          amountPaid := some ((a : ℤ) : ℚ)
          status := .completed }, .available) ∧
      1 ≤ dm ∧ 0 ≤ a := by
  refine ⟨max 1 (round ((now - b.startTime) / 60000)),
    round ((now - b.startTime) / 3600000 * perHourOrDefault perHourOpt),
    ?_, le_max_left 1 _, ?_⟩
  · simp [adminWalkinStop, hact]
  · have hms : (0 : ℚ) ≤ now - b.startTime := sub_nonneg.mpr hle
    have hx : (0 : ℚ) ≤ (now - b.startTime) / 3600000 * perHourOrDefault perHourOpt :=
      mul_nonneg (div_nonneg hms (by norm_num)) hp
    rw [round_eq]
    exact Int.floor_nonneg.mpr (by linarith)

/-- C5 check: stopping the walk-in booking started at time 0 after 1.5
minutes at rate 200 NPR/h. -/
theorem walkin_stop_bounds_check :
    ∃ dm a : ℤ, adminWalkinStop bookingW (some 200) 90000 =
        Except.ok ({ bookingW with
          endTime := 90000
          estimatedDuration := (dm : ℚ)
          amountPaid := some ((a : ℤ) : ℚ)
          status := .completed }, .available) ∧
      1 ≤ dm ∧ 0 ≤ a :=
  walkin_stop_bounds bookingW (some 200) 90000 rfl
    (by norm_num [bookingW, bookingA]) (by norm_num [perHourOrDefault])

/-- The haversine intermediate value `a` is symmetric in the two points:
`sin²(dLat/2)` and `sin²(dLng/2)` are even in the coordinate differences
and the cosine product commutes. -/
theorem haversine_a_symm (lat1 lng1 lat2 lng2 : ℝ) :
    Real.sin ((lat2 - lat1) * Real.pi / 180 / 2) * Real.sin ((lat2 - lat1) * Real.pi / 180 / 2) +
      Real.cos (lat1 * Real.pi / 180) * Real.cos (lat2 * Real.pi / 180) *
        Real.sin ((lng2 - lng1) * Real.pi / 180 / 2) *
        Real.sin ((lng2 - lng1) * Real.pi / 180 / 2) =
    Real.sin ((lat1 - lat2) * Real.pi / 180 / 2) * Real.sin ((lat1 - lat2) * Real.pi / 180 / 2) +
      Real.cos (lat2 * Real.pi / 180) * Real.cos (lat1 * Real.pi / 180) *
        Real.sin ((lng1 - lng2) * Real.pi / 180 / 2) *
        Real.sin ((lng1 - lng2) * Real.pi / 180 / 2) := by
  have h1 : (lat1 - lat2) * Real.pi / 180 / 2 = -((lat2 - lat1) * Real.pi / 180 / 2) := by
    ring
  have h2 : (lng1 - lng2) * Real.pi / 180 / 2 = -((lng2 - lng1) * Real.pi / 180 / 2) := by
    ring
  rw [h1, h2, Real.sin_neg, Real.sin_neg]
  ring

/-- C7: `haversineDistance` is symmetric in its two coordinate pairs and
returns 0 on identical coordinates. -/
theorem haversine_symm_zero :
    (∀ lat1 lng1 lat2 lng2 : ℝ,
        haversineDistance lat1 lng1 lat2 lng2 = haversineDistance lat2 lng2 lat1 lng1) ∧
    (∀ lat lng : ℝ, haversineDistance lat lng lat lng = 0) := by
  constructor
  · intro lat1 lng1 lat2 lng2
    simp only [haversineDistance]
    rw [haversine_a_symm lat1 lng1 lat2 lng2]
  · intro lat lng
    simp [haversineDistance, jsAtan2, Real.sqrt_one, Real.arctan_zero]

/-- The strict-comparison update of the route loop computes a binary
minimum. -/
theorem ite_lt_eq_min (d cur : EReal) : (if d < cur then d else cur) = min d cur := by
  split
  · exact (min_eq_left (le_of_lt (by assumption))).symm
  · exact (min_eq_right (le_of_not_lt (by assumption))).symm

/-- The route loop folds the binary minimum of the segment distances over
the consecutive pairs of the polyline, starting from its accumulator. -/
theorem routeLoop_eq_foldl (lat lng : ℝ) (l : List (ℝ × ℝ)) : ∀ acc : EReal,
    routeLoop lat lng acc l =
      (l.zip l.tail).foldl
        (fun m ab => min m ((routeSegDist lat lng ab.1 ab.2 : ℝ) : EReal)) acc := by
  induction l with
  | nil => intro acc; rfl
  | cons a rest ih =>
    intro acc
    cases rest with
    | nil => rfl
    | cons b rest2 =>
      show routeLoop lat lng _ (b :: rest2) = _
      rw [ih]
      simp only [List.zip_cons_cons, List.tail_cons, List.foldl_cons, ite_lt_eq_min,
        min_comm]

/-- C10: `pointToRouteDistance` equals the minimum of
`pointToSegmentDistance` over all consecutive coordinate pairs of the
polyline (folded with `min` from `Infinity`), and returns `Infinity`
whenever the polyline has fewer than two coordinates. -/
theorem route_distance_min (lat lng : ℝ) (routeCoords : List (ℝ × ℝ)) :
    pointToRouteDistance lat lng routeCoords =
      (routeCoords.zip routeCoords.tail).foldl
        (fun m ab => min m ((routeSegDist lat lng ab.1 ab.2 : ℝ) : EReal)) ⊤ ∧
    (routeCoords.length < 2 → pointToRouteDistance lat lng routeCoords = ⊤) := by
  refine ⟨routeLoop_eq_foldl lat lng routeCoords ⊤, ?_⟩
  intro h
  match routeCoords, h with
  | [], _ => rfl
  | [a], _ => rfl
  | a :: b :: t, h => exact absurd h (by simp)

/-- C10 check: a single-point polyline yields `Infinity`. -/
theorem route_distance_min_check :
    pointToRouteDistance 0 0 [((0 : ℝ), (0 : ℝ))] = ⊤ :=
  (route_distance_min 0 0 [((0 : ℝ), (0 : ℝ))]).2 (by norm_num)

/-- The status codes the implemented handlers actually use for error
responses: the uniform set of spec §7 plus 410 (deprecated Stripe
endpoints) and 503 (payment gateway not configured). -/
def usedErrorStatusCodes : List Nat :=
  [400, 401, 403, 404, 409, 410, 500, 503]

/-- Every status the verify handler can answer. -/
theorem verifyRoute_status_mem (authUser pidx bookingId : Option String)
    (khaltiConfigured : Bool) (lookup : Except Unit String)
    (bookingOpt : Option Booking) (p : ChargingPort) :
    (verifyRoute authUser pidx bookingId khaltiConfigured lookup bookingOpt p).1 ∈
      [200, 400, 401, 403, 404, 500, 503] := by
  unfold verifyRoute
  repeat' first
    | split
    | simp only [List.mem_cons, List.mem_singleton]
  all_goals tauto

/-- The initiate flow ends in exactly one of 200, 409, 500. -/
theorem initiateFlow_status_cases (db : List Booking)
    (newId userId userName userEmail : String) (r : InitiateReq) (perHour : ℚ)
    (gateway : Option KhaltiRes) :
    (initiateFlow db newId userId userName userEmail r perHour gateway).1 = 200 ∨
    (initiateFlow db newId userId userName userEmail r perHour gateway).1 = 409 ∨
    (initiateFlow db newId userId userName userEmail r perHour gateway).1 = 500 := by
  unfold initiateFlow initiateTxn
  by_cases h : hasOverlap db r.stationId r.portId r.startTime
      (r.startTime + r.durationMinutes * 60 * 1000) = true
  · simp [h]
  · cases gateway <;> simp [h]

/-- The only error code the QR check-in core produces is 409. -/
theorem walkinCheckin_error_code (port : ChargingPort) (perHourOpt : Option ℚ) (d : JSNum)
    (now : ℚ) (newId stationId customerName customerPhone : String) (code : Nat)
    (hcode : walkinCheckin port perHourOpt d now newId stationId customerName customerPhone =
      Except.error code) : code = 409 := by
  unfold walkinCheckin at hcode
  by_cases h : (port.status != PortStat.available) = true
  · rw [if_pos h] at hcode
    injection hcode with h409
    exact h409.symm
  · rw [if_neg h] at hcode
    exact absurd hcode (by simp)

/-- The only error code the admin start core produces is 409. -/
theorem adminWalkinStart_error_code (db : List Booking) (stationId portId : String)
    (port : ChargingPort) (portIdValid : Bool) (now : ℚ) (newId : String) (code : Nat)
    (hcode : adminWalkinStart db stationId portId port portIdValid now newId =
      Except.error code) : code = 409 := by
  unfold adminWalkinStart at hcode
  by_cases h : activeWalkinOn db stationId portId = true
  · rw [if_pos h] at hcode
    injection hcode with h409
    exact h409.symm
  · rw [if_neg h] at hcode
    exact absurd hcode (by simp)

/-- The only error code the admin stop core produces is 404. -/
theorem adminWalkinStop_error_code (b : Booking) (perHourOpt : Option ℚ) (now : ℚ)
    (code : Nat)
    (hcode : adminWalkinStop b perHourOpt now = Except.error code) : code = 404 := by
  unfold adminWalkinStop at hcode
  by_cases h : (b.status != BookingStat.active) = true
  · rw [if_pos h] at hcode
    injection hcode with h404
    exact h404.symm
  · rw [if_neg h] at hcode
    exact absurd hcode (by simp)

/-- Every status the initiate handler can answer. -/
theorem initiateRoute_status_mem (authUser : Option String)
    (userResolvable fieldsPresent khaltiConfigured stationFound portFound : Bool)
    (db : List Booking) (newId userName userEmail : String)
    (r : InitiateReq) (perHour : ℚ) (gateway : Option KhaltiRes) :
    (initiateRoute authUser userResolvable fieldsPresent khaltiConfigured stationFound
        portFound db newId userName userEmail r perHour gateway).1 ∈
      [200, 400, 401, 404, 409, 500, 503] := by
  unfold initiateRoute
  rcases authUser with _ | u
  · simp
  · rcases initiateFlow_status_cases db newId u userName userEmail r perHour gateway with
      hm | hm | hm <;>
      by_cases h1 : userResolvable <;> by_cases h2 : fieldsPresent <;>
      by_cases h3 : khaltiConfigured <;> by_cases h4 : stationFound <;>
      by_cases h5 : portFound <;>
      simp [h1, h2, h3, h4, h5, hm]

/-- Every status the public QR check-in handler can answer. -/
theorem walkinCheckinRoute_status_mem (stationPortPresent namePhonePresent : Bool)
    (stationFound : Bool) (portOpt : Option ChargingPort)
    (perHourOpt : Option ℚ) (reqDuration : JSNum) (now : ℚ)
    (newId stationId customerName customerPhone : String) :
    (walkinCheckinRoute stationPortPresent namePhonePresent stationFound portOpt
        perHourOpt reqDuration now newId stationId customerName customerPhone).1 ∈
      [201, 400, 404, 409] := by
  unfold walkinCheckinRoute
  rcases portOpt with _ | port
  · by_cases h1 : stationPortPresent <;> by_cases h2 : namePhonePresent <;>
      by_cases h3 : stationFound <;> simp [h1, h2, h3]
  · rcases he : walkinCheckin port perHourOpt reqDuration now newId stationId customerName
        customerPhone with code | res
    · have hc := walkinCheckin_error_code port perHourOpt reqDuration now newId stationId
        customerName customerPhone code he
      subst hc
      by_cases h1 : stationPortPresent <;> by_cases h2 : namePhonePresent <;>
        by_cases h3 : stationFound <;> simp [h1, h2, h3, he]
    · by_cases h1 : stationPortPresent <;> by_cases h2 : namePhonePresent <;>
        by_cases h3 : stationFound <;> simp [h1, h2, h3, he]

/-- Every status the admin walk-in handler can answer. -/
theorem adminWalkinRoute_status_mem (authUser : Option String) (roleOk : Bool)
    (action : WalkinAction) (fieldsPresent stationFound ownershipOk : Bool)
    (db : List Booking) (stationId portId : String) (port : ChargingPort)
    (portIdValid : Bool) (stopBooking : Option Booking) (perHourOpt : Option ℚ)
    (now : ℚ) (newId : String) :
    adminWalkinRoute authUser roleOk action fieldsPresent stationFound ownershipOk db
        stationId portId port portIdValid stopBooking perHourOpt now newId ∈
      [200, 201, 400, 401, 403, 404, 409] := by
  unfold adminWalkinRoute
  rcases authUser with _ | u
  · simp
  by_cases hr : roleOk
  case neg => simp [hr]
  rcases action with _ | _ | _
  · rcases he : adminWalkinStart db stationId portId port portIdValid now newId with
      code | res
    · have hc := adminWalkinStart_error_code db stationId portId port portIdValid now
        newId code he
      subst hc
      by_cases h1 : fieldsPresent <;> by_cases h2 : stationFound <;>
        by_cases h3 : ownershipOk <;> simp [hr, h1, h2, h3, he]
    · by_cases h1 : fieldsPresent <;> by_cases h2 : stationFound <;>
        by_cases h3 : ownershipOk <;> simp [hr, h1, h2, h3, he]
  · rcases stopBooking with _ | b
    · by_cases h1 : fieldsPresent <;> simp [hr, h1]
    · rcases he : adminWalkinStop b perHourOpt now with code | res
      · have hc := adminWalkinStop_error_code b perHourOpt now code he
        subst hc
        by_cases h1 : fieldsPresent <;> by_cases h3 : ownershipOk <;>
          by_cases hb : (b.status != BookingStat.active) = true <;>
          simp [hr, h1, h3, hb, he]
      · by_cases h1 : fieldsPresent <;> by_cases h3 : ownershipOk <;>
          by_cases hb : (b.status != BookingStat.active) = true <;>
          simp [hr, h1, h3, hb, he]
  · by_cases h1 : fieldsPresent <;> by_cases h3 : ownershipOk <;> simp [hr, h1, h3]

/-- C8 counterexample: the verify handler's gateway-not-configured branch
answers 503 and the deprecated Stripe webhook answers 410, both error
statuses outside the claimed set {400, 401, 403, 404, 409, 500}. -/
theorem handler_status_outside_uniform_set :
    (verifyRoute (some "u") (some "px") (some "bk") false (Except.ok "Completed")
        none port1).1 = 503 ∧
    webhookRoute () = 410 ∧
    (503 : Nat) ∉ [400, 401, 403, 404, 409, 500] ∧
    (410 : Nat) ∉ [400, 401, 403, 404, 409, 500] ∧
    400 ≤ 503 ∧ 400 ≤ 410 := by
  refine ⟨rfl, rfl, by decide, by decide, by decide, by decide⟩

/-- C8 (amended): across the modelled handlers (payment initiate, payment
verify, deprecated Stripe webhook, public QR check-in, admin walk-in),
every response status of 400 or above lies in
{400, 401, 403, 404, 409, 410, 500, 503}: the uniform pattern of spec §7
extended by 410 for the deprecated Stripe endpoints and 503 for the
gateway-not-configured branches. -/
theorem handler_error_statuses :
    (∀ authUser pidx bookingId khaltiConfigured lookup bookingOpt p,
      400 ≤ (verifyRoute authUser pidx bookingId khaltiConfigured lookup bookingOpt p).1 →
      (verifyRoute authUser pidx bookingId khaltiConfigured lookup bookingOpt p).1 ∈
        usedErrorStatusCodes) ∧
    (∀ authUser userResolvable fieldsPresent khaltiConfigured stationFound portFound db
        newId userName userEmail r perHour gateway,
      400 ≤ (initiateRoute authUser userResolvable fieldsPresent khaltiConfigured
          stationFound portFound db newId userName userEmail r perHour gateway).1 →
      (initiateRoute authUser userResolvable fieldsPresent khaltiConfigured stationFound
          portFound db newId userName userEmail r perHour gateway).1 ∈
        usedErrorStatusCodes) ∧
    (∀ stationPortPresent namePhonePresent stationFound portOpt perHourOpt reqDuration
        now newId stationId customerName customerPhone,
      400 ≤ (walkinCheckinRoute stationPortPresent namePhonePresent stationFound portOpt
          perHourOpt reqDuration now newId stationId customerName customerPhone).1 →
      (walkinCheckinRoute stationPortPresent namePhonePresent stationFound portOpt
          perHourOpt reqDuration now newId stationId customerName customerPhone).1 ∈
        usedErrorStatusCodes) ∧
    (∀ authUser roleOk action fieldsPresent stationFound ownershipOk db stationId portId
        port portIdValid stopBooking perHourOpt now newId,
      400 ≤ adminWalkinRoute authUser roleOk action fieldsPresent stationFound ownershipOk
          db stationId portId port portIdValid stopBooking perHourOpt now newId →
      adminWalkinRoute authUser roleOk action fieldsPresent stationFound ownershipOk db
          stationId portId port portIdValid stopBooking perHourOpt now newId ∈
        usedErrorStatusCodes) ∧
    (webhookRoute () = 410 ∧ (410 : Nat) ∈ usedErrorStatusCodes) := by
  refine ⟨?_, ?_, ?_, ?_, rfl, by decide⟩
  · intro authUser pidx bookingId khaltiConfigured lookup bookingOpt p h
    have hm := verifyRoute_status_mem authUser pidx bookingId khaltiConfigured lookup
      bookingOpt p
    simp only [List.mem_cons, List.not_mem_nil, or_false] at hm
    unfold usedErrorStatusCodes
    rcases hm with hm | hm | hm | hm | hm | hm | hm <;> rw [hm] at h ⊢ <;>
      first
        | (exfalso; omega)
        | simp
  · intro authUser userResolvable fieldsPresent khaltiConfigured stationFound portFound db
      newId userName userEmail r perHour gateway h
    have hm := initiateRoute_status_mem authUser userResolvable fieldsPresent
      khaltiConfigured stationFound portFound db newId userName userEmail r perHour gateway
    simp only [List.mem_cons, List.not_mem_nil, or_false] at hm
    unfold usedErrorStatusCodes
    rcases hm with hm | hm | hm | hm | hm | hm | hm <;> rw [hm] at h ⊢ <;>
      first
        | (exfalso; omega)
        | simp
  · intro stationPortPresent namePhonePresent stationFound portOpt perHourOpt reqDuration
      now newId stationId customerName customerPhone h
    have hm := walkinCheckinRoute_status_mem stationPortPresent namePhonePresent
      stationFound portOpt perHourOpt reqDuration now newId stationId customerName
      customerPhone
    simp only [List.mem_cons, List.not_mem_nil, or_false] at hm
    unfold usedErrorStatusCodes
    rcases hm with hm | hm | hm | hm <;> rw [hm] at h ⊢ <;>
      first
        | (exfalso; omega)
        | simp
  · intro authUser roleOk action fieldsPresent stationFound ownershipOk db stationId
      portId port portIdValid stopBooking perHourOpt now newId h
    have hm := adminWalkinRoute_status_mem authUser roleOk action fieldsPresent
      stationFound ownershipOk db stationId portId port portIdValid stopBooking perHourOpt
      now newId
    simp only [List.mem_cons, List.not_mem_nil, or_false] at hm
    unfold usedErrorStatusCodes
    rcases hm with hm | hm | hm | hm | hm | hm | hm <;> rw [hm] at h ⊢ <;>
      first
        | (exfalso; omega)
        | simp

/-- C8 check: instantiating the amended bound at the 503 branch of the
verify handler. -/
theorem handler_error_statuses_check :
    (verifyRoute (some "u") (some "px") (some "bk") false (Except.ok "Completed")
        none port1).1 ∈ usedErrorStatusCodes :=
  handler_error_statuses.1 (some "u") (some "px") (some "bk") false (Except.ok "Completed")
    none port1 (by decide)

end EVCharge
